import Mathlib

/-!
Verification of the News_Auth_Articles_API repository against its
natural-language specification.

The development shallow-embeds the authorization middleware chain, the token
service, the WebSocket connection registry with its broadcast dispatcher, the
article mutation controllers, the keyword search service and the user store
operations, translated from the JavaScript sources:

  - src/unnamed/part_000      (auth routes, authenticate / isAdmin /
                               isAuthorOrAdmin middlewares)
  - src/services/auth.services.js   (registerUser, loginUser, verifyToken,
                               getUserById, article services incl. search)
  - src/models/article.model.js     (searchArticles and CRUD query shapes)
  - src/controllers/article.controller.js (mutation controllers and their
                               WebSocket notifications)
  - src/realtime/ws.js        (connection set, broadcast, message handler)
  - the user model (createUser, findAllUsers, updateUserByEmail, ...)

External collaborators (MongoDB, jsonwebtoken, bcrypt, JSON parsing) are
modelled at their interface, following the specification's collaborator
contracts; every such modelling choice is flagged in the doc comment of the
definition concerned.
-/

deriving instance DecidableEq for Except

namespace NewsApi

/-- Splitting of a character list at every space, the behaviour of the
JavaScript `split(' ')` (adjacent separators yield empty segments). -/
def splitSpaces : List Char → List (List Char)
  | [] => [[]]
  | c :: rest =>
    let r := splitSpaces rest
    if c == ' ' then [] :: r
    else
      match r with
      | [] => [[c]]
      | seg :: segs => (c :: seg) :: segs

/-- Whitespace recognised by the JavaScript `trim`, restricted to the ASCII
whitespace relevant to the embedded strings. -/
def isJsSpace (c : Char) : Bool :=
  c == ' ' || c == '\t' || c == '\n' || c == '\r'

/-- The JavaScript `trim`: strips leading and trailing whitespace. -/
def jsTrim (s : String) : String :=
  String.mk (((s.toList.dropWhile isJsSpace).reverse.dropWhile isJsSpace).reverse)

/-- Decoded JWT payload as attached to the request by the `authenticate`
middleware (`req.user = await authService.verifyToken(token)`).  Tokens issued
by `loginUser` sign only `userId` and `role`, so in every payload the service
produces the `username` field is absent (`none`); the field exists in the
model because `isAuthorOrAdmin` reads `user.username`. -/
structure ReqUser where
  userId : String
  role : String
  username : Option String
deriving DecidableEq

/-- An article document as stored in the `articles` collection
(src/models/article.model.js); `createdAt` abstracts the stored date as a
number usable for the descending sort. -/
structure ArticleDoc where
  _id : String
  title : String
  author : String
  journalName : String
  category : List String
  description : String
  imageUrl : String
  createdAt : Nat
deriving DecidableEq

/-- Outcome of a middleware step: the HTTP error response it returns, or
`pass u` when it calls `next()` with `req.user = u`. -/
inductive GateOutcome
  | missingToken
  | invalidToken
  | forbidden
  | notFound
  | pass (u : ReqUser)
deriving DecidableEq

/-- HTTP status code of each middleware outcome, matching the
`res.status(...)` calls in src/unnamed/part_000 (401 for a missing or invalid
token, 403 for role and ownership failures, 404 for a missing article); a
`pass` reaches the handler. -/
def statusOf : GateOutcome → Nat
  | GateOutcome.missingToken => 401
  | GateOutcome.invalidToken => 401
  | GateOutcome.forbidden => 403
  | GateOutcome.notFound => 404
  | GateOutcome.pass _ => 200

/-- Bearer-token extraction done by `authenticate`:
`authHeader && authHeader.split(' ')[1]`, with the subsequent `if (!token)`
treating an absent header, a header without a second word, and an empty
second word as "no token". -/
def extractBearer (authHeader : Option String) : Option String :=
  match authHeader with
  | none => none
  | some h =>
    match (splitSpaces h.toList).get? 1 with
    | none => none
    | some t => if t.isEmpty then none else some (String.mk t)

/-- The `authenticate` middleware (src/unnamed/part_000, lines 19-42): no
bearer token yields a 401 `Token manquant` response; `verifyToken` throwing
yields a 401 `Token invalide` response; otherwise the decoded payload is
attached and `next()` is called.  The middleware consults no store: its only
inputs are the header and the token verifier. -/
def authenticate (verify : String → Except String ReqUser)
    (authHeader : Option String) : GateOutcome :=
  match extractBearer authHeader with
  | none => GateOutcome.missingToken
  | some token =>
    match verify token with
    | Except.error _ => GateOutcome.invalidToken
    | Except.ok u => GateOutcome.pass u

/-- The `isAdmin` middleware: `req.user?.role !== 'admin'` yields 403,
otherwise `next()`. -/
def isAdmin (user : Option ReqUser) : GateOutcome :=
  match user with
  | none => GateOutcome.forbidden
  | some u => if u.role = "admin" then GateOutcome.pass u else GateOutcome.forbidden

/-- The `isAuthorOrAdmin` middleware (src/unnamed/part_000, lines 762-803).
`getArticleById` abstracts `articleModel.getArticleById` as a lookup into the
article store.  Note the ownership test is the JavaScript comparison
`article.author !== user.username` where `user` is the decoded token payload,
embedded here as `some article.author ≠ u.username` (an absent `username`
can never equal a stored author string, exactly as `undefined !== "alice"`). -/
def isAuthorOrAdmin (getArticleById : String → Option ArticleDoc)
    (user : Option ReqUser) (articleIdParam : Option String) : GateOutcome :=
  match user with
  | none => GateOutcome.forbidden
  | some u =>
    if u.role = "admin" then GateOutcome.pass u
    else if u.role = "author" then
      match articleIdParam with
      | some articleId =>
        match getArticleById articleId with
        | none => GateOutcome.notFound
        | some article =>
          if some article.author ≠ u.username then GateOutcome.forbidden
          else GateOutcome.pass u
      | none => GateOutcome.pass u
    else GateOutcome.forbidden

/-- The middleware chain actually mounted on the article-by-id mutation
routes (src/routes/article.routes.js): `router.use(authenticate, isAdmin)`
runs before every protected article route, and the by-id PUT and DELETE
routes then add `isAuthorOrAdmin`.  The first middleware that responds
short-circuits the chain. -/
def articleByIdMutationGate (verify : String → Except String ReqUser)
    (getArticleById : String → Option ArticleDoc)
    (authHeader : Option String) (articleIdParam : Option String) : GateOutcome :=
  match authenticate verify authHeader with
  | GateOutcome.pass u =>
    match isAdmin (some u) with
    | GateOutcome.pass u' => isAuthorOrAdmin getArticleById (some u') articleIdParam
    | r => r
  | r => r

/-- A protected route as mounted in src/unnamed/part_000: `authenticate`
followed by the rest of the pipeline (`next` stands for whatever middleware
and handler follow). -/
def protectedRoute (verify : String → Except String ReqUser)
    (next : ReqUser → GateOutcome) (authHeader : Option String) : GateOutcome :=
  match authenticate verify authHeader with
  | GateOutcome.pass u => next u
  | r => r

/-- A stored password value.  Modelled from the spec: bcrypt is an external
library; the model keeps only the distinction that matters to the invariant,
namely whether the stored string is a bcrypt hash of some plaintext or the
raw plaintext itself. -/
inductive PwValue
  | hashed (source : String)
  | plain (s : String)
deriving DecidableEq

/-- Modelled from the spec: `bcrypt.hash(p, 10)` produces a hash of `p`,
never the plaintext itself. -/
def bcryptHash (plainPw : String) : PwValue := PwValue.hashed plainPw

/-- A user document in the `users` collection.  `password` is optional so
that read operations that strip the field can be expressed on the same
type. -/
structure UserDoc where
  _id : String
  username : String
  email : String
  password : Option PwValue
  role : String
deriving DecidableEq

/-- Request body accepted by `registerUser`. -/
structure RegisterData where
  username : String
  email : String
  password : String
  role : Option String
deriving DecidableEq

/-- `registerUser` (src/services/auth.services.js, lines 18-32): hashes the
password, defaults the role to `member` when the supplied role is falsy
(absent or the empty string), and stores the document; `newId` stands for
the id minted by the store insert. -/
def registerUser (newId : String) (d : RegisterData) : UserDoc :=
  { _id := newId
    username := d.username
    email := d.email
    password := some (bcryptHash d.password)
    role :=
      match d.role with
      | none => "member"
      | some r => if r = "" then "member" else r }

/-- Update body for the user-update operations; only the password field is
relevant to the claims, other `$set` fields are elided. -/
structure UserUpdateData where
  password : Option String
deriving DecidableEq

/-- Applies `$set updateData` to the first document matching `p`, as
MongoDB's `updateOne` does. -/
def updateFirst (p : UserDoc → Bool) (f : UserDoc → UserDoc) :
    List UserDoc → List UserDoc
  | [] => []
  | u :: us => if p u then f u :: us else u :: updateFirst p f us

/-- `updateUserByEmail` of the user model: performs
`updateOne({ email }, { $set: updateData })` directly on the request body.
Unlike `updateUser` in auth.services.js, this path does NOT hash a supplied
password: the raw value lands in the store. -/
def updateUserByEmail (email : String) (d : UserUpdateData)
    (store : List UserDoc) : List UserDoc :=
  updateFirst (fun u => u.email == email)
    (fun u =>
      match d.password with
      | some p => { u with password := some (PwValue.plain p) }
      | none => u) store

/-- `updateUser` of auth.services.js (lines 101-109): hashes the password
when one is supplied, then updates the document by id. -/
def updateUserService (userId : String) (d : UserUpdateData)
    (store : List UserDoc) : List UserDoc :=
  updateFirst (fun u => u._id == userId)
    (fun u =>
      match d.password with
      | some p => { u with password := some (bcryptHash p) }
      | none => u) store

/-- Removal of the password field before a user record is returned, the
`const (password, ...userWithoutPassword) = user` destructuring used by
`getUserById` and the by-email / by-username route handlers. -/
def stripPassword (u : UserDoc) : UserDoc := { u with password := none }

/-- `getUserById` of auth.services.js (lines 86-93): looks the user up and
returns it without the password field. -/
def getUserById (store : List UserDoc) (userId : String) : Option UserDoc :=
  match store.find? (fun u => u._id == userId) with
  | none => none
  | some u => some (stripPassword u)

/-- `findAllUsers` of the user model: `find({}, { projection: { password:
0 } })`, every returned record has the password excluded. -/
def findAllUsers (store : List UserDoc) : List UserDoc :=
  store.map stripPassword

/-- The GET /users/email/:email handler (src/unnamed/part_000, lines
306-328): finds the user by email and answers with the record minus the
password field. -/
def getUserByEmailHandler (store : List UserDoc) (email : String) :
    Option UserDoc :=
  (store.find? (fun u => u.email == email)).map stripPassword

/-- The GET /users/username/:username handler: finds the user by username
and answers with the record minus the password field. -/
def getUserByUsernameHandler (store : List UserDoc) (username : String) :
    Option UserDoc :=
  (store.find? (fun u => u.username == username)).map stripPassword

/-- Modelled from the spec: the signature the jsonwebtoken library computes
over the signed content with the shared secret.  Verification recomputes
this tag and compares. -/
def jwtMac (secret userId role : String) (iat expiry : Nat) : String :=
  secret ++ "|" ++ userId ++ "|" ++ role ++ "|" ++ toString iat ++ "|" ++ toString expiry

/-- Modelled from the spec: a well-formed signed token carries the payload
fields that `jwt.sign` embeds for this application (`userId` and `role`, per
loginUser), the issue and expiry times in seconds, and the signature tag. -/
structure SignedJwt where
  userId : String
  role : String
  iat : Nat
  expiry : Nat
  sig : String
deriving DecidableEq

/-- Modelled from the spec: an inbound token string either parses as a signed
token or is malformed. -/
inductive Token
  | wellFormed (j : SignedJwt)
  | malformed (raw : String)
deriving DecidableEq

/-- Modelled from the spec: `jwt.sign(payload, secret, { expiresIn })`
stamps the issue time and an expiry `expiresIn` seconds later and signs. -/
def jwtSign (secret userId role : String) (now expiresInSecs : Nat) : Token :=
  Token.wellFormed
    { userId := userId
      role := role
      iat := now
      expiry := now + expiresInSecs
      sig := jwtMac secret userId role now (now + expiresInSecs) }

/-- Modelled from the spec: `jwt.verify(token, secret)` throws on a malformed
token, on a signature that does not match the secret, and on an expired
token (the library rejects once the clock reaches `exp`); on success it
returns the decoded payload.  The clock is an explicit argument; the result
is a pure function of token, secret and clock.  The payload it returns is
exactly what was signed: `userId` and `role`, no `username`. -/
def jwtVerify (secret : String) (now : Nat) : Token → Except String ReqUser
  | Token.malformed _ => Except.error "jwt malformed"
  | Token.wellFormed j =>
    if j.sig ≠ jwtMac secret j.userId j.role j.iat j.expiry then
      Except.error "invalid signature"
    else if j.expiry ≤ now then Except.error "jwt expired"
    else Except.ok { userId := j.userId, role := j.role, username := none }

/-- The fixed token lifetime: `expiresIn: '1h'` in loginUser
(src/services/auth.services.js, lines 49-53). -/
def tokenLifetimeSecs : Nat := 3600

/-- The token issued by `loginUser`: `jwt.sign({ userId: user._id, role:
user.role }, secret, { expiresIn: '1h' })`.  The payload omits the
username. -/
def loginIssueToken (secret : String) (now : Nat) (u : UserDoc) : Token :=
  jwtSign secret u._id u.role now tokenLifetimeSecs

/-- The request-context payload a login token decodes to: only `userId` and
`role` were signed, so `username` is `none`. -/
def loginPayload (u : UserDoc) : ReqUser :=
  { userId := u._id, role := u.role, username := none }

/-! WebSocket connection registry and broadcast (src/realtime/ws.js). -/

/-- `WebSocket.OPEN` of the ws library. -/
def WS_OPEN : Nat := 1

/-- A connected WebSocket client: `id` models the object identity keying the
`clients` set, `readyState` the transport state, and `inbox` the sequence of
messages pushed to it by `send`. -/
structure WsClient where
  id : Nat
  readyState : Nat
  inbox : List String
deriving DecidableEq

/-- A broadcast event value handed to `wsBroadcast`; the model keeps the
discriminating `type` tag and the bulk-mutation `count`, eliding the
free-form message text, article payload and timestamp. -/
structure WsEvent where
  type : String
  count : Option Nat
deriving DecidableEq

/-- The `broadcast` closure of src/realtime/ws.js (lines 46-53): serializes
the event once (`messageString`), then for each client in the set sends that
same string when `client.readyState === WebSocket.OPEN`, and otherwise does
nothing to it — in particular it never removes a client from the set.
`stringify` abstracts `JSON.stringify`. -/
def broadcast (stringify : WsEvent → String) (message : WsEvent)
    (clients : List WsClient) : List WsClient :=
  let messageString := stringify message
  clients.map (fun client =>
    if client.readyState = WS_OPEN then
      { client with inbox := client.inbox ++ [messageString] }
    else client)

/-- `clients.delete(ws)` as performed by the close and error handlers:
removes the handle with the given identity from the set, a no-op when it is
absent (a JavaScript Set delete never throws). -/
def unregister (wsId : Nat) (clients : List WsClient) : List WsClient :=
  clients.filter (fun c => c.id != wsId)

/-- The outcome of `JSON.parse` on an inbound text frame.  Modelled from the
spec: JSON parsing is an external collaborator; a frame either fails to
parse or yields an object whose optional `type` field is retained. -/
inductive InboundFrame
  | malformed (raw : String)
  | parsed (ty : Option String)
deriving DecidableEq

/-- The per-connection message handler (src/realtime/ws.js, lines 18-32):
a parse failure is caught and ignored; a parsed frame produces a reply only
when its type is exactly `ping`, in which case one `pong` message is sent to
the receiving socket itself; the `clients` set is never touched. -/
def handleMessage (stringify : WsEvent → String) (sender : Nat)
    (frame : InboundFrame) (clients : List WsClient) :
    List WsClient × List (Nat × String) :=
  match frame with
  | InboundFrame.malformed _ => (clients, [])
  | InboundFrame.parsed ty =>
    if ty = some "ping" then
      (clients, [(sender, stringify { type := "pong", count := none })])
    else (clients, [])

/-! Article mutation controllers (src/controllers/article.controller.js).
Each controller is embedded as a function of the results the store layer
reports back to it, returning the HTTP status it answers with and the list
of broadcast events it publishes.  `hasBroadcast` models the
`if (req.app.locals.wsBroadcast)` guard; the server wires the broadcast
function at startup, so the running system has it `true`. -/

/-- Request body of POST /articles; `category` is an array in the schema
(any array, even empty, is truthy in the controller's check). -/
structure CreateBody where
  title : Option String
  author : Option String
  journalName : Option String
  category : Option (List String)
  description : Option String
deriving DecidableEq

/-- JavaScript falsiness of an optional string field: absent or empty. -/
def strFalsy : Option String → Bool
  | none => true
  | some s => s == ""

/-- `requiredFields.filter(field => !req.body[field])` of createArticle. -/
def createMissingFields (b : CreateBody) : List String :=
  (if strFalsy b.title then ["title"] else []) ++
  (if strFalsy b.author then ["author"] else []) ++
  (if strFalsy b.journalName then ["journalName"] else []) ++
  (if b.category.isNone then ["category"] else []) ++
  (if strFalsy b.description then ["description"] else [])

/-- `createArticle` (lines 10-51): 400 with no service call when required
fields are missing; otherwise `insertResult` is what the insert reports (the
minted id on success — `insertOne` inserts exactly one document whenever it
succeeds — or a thrown error).  After a successful insert the controller
awaits `getArticleByIdService` to fetch the article for the notification
payload; that read-back sits between the write and the publish and can
itself throw (store failure), in which case control jumps to the catch —
500 and nothing published — even though the insert succeeded.  Only when
the read-back also returns (with the article, or `null`) is one
`article.created` event published.  `readBack` is what that intervening
read reports. -/
def createArticleCtrl (hasBroadcast : Bool) (b : CreateBody)
    (insertResult : Except String String)
    (readBack : Except String (Option ArticleDoc)) :
    Nat × List WsEvent :=
  if createMissingFields b ≠ [] then (400, [])
  else
    match insertResult with
    | Except.error _ => (500, [])
    | Except.ok _ =>
      match readBack with
      | Except.error _ => (500, [])
      | Except.ok _ =>
        (201, if hasBroadcast then [{ type := "article.created", count := none }] else [])

/-- `updateArticle` (lines 133-162): `svc` is the modified-count the update
service reports, or its thrown error (caught as 500).  A zero count answers
404 with nothing published.  On a non-zero count the controller awaits
`getArticleByIdService` to fetch the updated article for the notification
payload; that read-back sits between the write and the publish and can
itself throw (store failure), in which case control jumps to the catch —
500 and nothing published — even though the update reported a non-zero
count.  Only when the read-back also returns is one `article.updated`
event published. -/
def updateArticleCtrl (hasBroadcast : Bool) (svc : Except String Nat)
    (readBack : Except String (Option ArticleDoc)) : Nat × List WsEvent :=
  match svc with
  | Except.error _ => (500, [])
  | Except.ok modifiedCount =>
    if modifiedCount = 0 then (404, [])
    else
      match readBack with
      | Except.error _ => (500, [])
      | Except.ok _ =>
        (200, if hasBroadcast then [{ type := "article.updated", count := none }] else [])

/-- `deleteArticle` (lines 240-268): zero deleted-count answers 404 with
nothing published; a non-zero count publishes one `article.deleted` event;
a thrown error is caught as 400 with nothing published. -/
def deleteArticleCtrl (hasBroadcast : Bool) (svc : Except String Nat) :
    Nat × List WsEvent :=
  match svc with
  | Except.error _ => (400, [])
  | Except.ok deletedCount =>
    if deletedCount = 0 then (404, [])
    else (200, if hasBroadcast then [{ type := "article.deleted", count := none }] else [])

/-- `updateArticlesByTitle`: publishes one `articles.updated` event carrying
the count exactly when the reported modified-count is non-zero. -/
def updateArticlesByTitleCtrl (hasBroadcast : Bool) (svc : Except String Nat) :
    Nat × List WsEvent :=
  match svc with
  | Except.error _ => (500, [])
  | Except.ok modifiedCount =>
    if modifiedCount = 0 then (404, [])
    else (200, if hasBroadcast then [{ type := "articles.updated", count := some modifiedCount }] else [])

/-- `updateArticlesByAuthor`: same shape as the by-title bulk update. -/
def updateArticlesByAuthorCtrl (hasBroadcast : Bool) (svc : Except String Nat) :
    Nat × List WsEvent :=
  match svc with
  | Except.error _ => (500, [])
  | Except.ok modifiedCount =>
    if modifiedCount = 0 then (404, [])
    else (200, if hasBroadcast then [{ type := "articles.updated", count := some modifiedCount }] else [])

/-- `deleteArticlesByTitle`: publishes one `articles.deleted` event exactly
when the reported deleted-count is non-zero; errors are caught as 400. -/
def deleteArticlesByTitleCtrl (hasBroadcast : Bool) (svc : Except String Nat) :
    Nat × List WsEvent :=
  match svc with
  | Except.error _ => (400, [])
  | Except.ok deletedCount =>
    if deletedCount = 0 then (404, [])
    else (200, if hasBroadcast then [{ type := "articles.deleted", count := some deletedCount }] else [])

/-- `deleteArticlesByAuthor`: same shape as the by-title bulk delete. -/
def deleteArticlesByAuthorCtrl (hasBroadcast : Bool) (svc : Except String Nat) :
    Nat × List WsEvent :=
  match svc with
  | Except.error _ => (400, [])
  | Except.ok deletedCount =>
    if deletedCount = 0 then (404, [])
    else (200, if hasBroadcast then [{ type := "articles.deleted", count := some deletedCount }] else [])

/-! Keyword search (src/models/article.model.js searchArticles and
src/services/auth.services.js searchArticlesService). -/

/-- Character-list test: `pat` occurs at the very start of `s`. -/
def leadsWith : List Char → List Char → Bool
  | [], _ => true
  | _ :: _, [] => false
  | a :: pr, b :: sr => a == b && leadsWith pr sr

/-- Character-list test: `pat` occurs contiguously somewhere in `s`. -/
def occursIn (pat : List Char) : List Char → Bool
  | [] => leadsWith pat []
  | b :: rest => leadsWith pat (b :: rest) || occursIn pat rest

/-- ASCII lower-casing of one character (the case folding the `i` regex flag
performs, restricted to the ASCII range the repository's data uses). -/
def lowerChar (c : Char) : Char :=
  if 65 ≤ c.toNat ∧ c.toNat ≤ 90 then Char.ofNat (c.toNat + 32) else c

/-- Lower-casing of a character list. -/
def lowerList (l : List Char) : List Char := l.map lowerChar

/-- Case-insensitive substring test, the semantics of
`$regex: new RegExp(query, 'i')` on a plain (metacharacter-free) query, per
the collaborator contract of the spec. -/
def ciContains (pat s : String) : Bool :=
  occursIn (lowerList pat.toList) (lowerList s.toList)

/-- The `$or` search predicate of `searchArticles`: title, description, any
category element, journal name or author contains the query
case-insensitively. -/
def matchesSearch (q : String) (a : ArticleDoc) : Bool :=
  ciContains q a.title || ciContains q a.description ||
  a.category.any (fun c => ciContains q c) ||
  ciContains q a.journalName || ciContains q a.author

/-- Insertion step for the `createdAt` descending sort. -/
def insertByCreatedDesc (a : ArticleDoc) : List ArticleDoc → List ArticleDoc
  | [] => [a]
  | b :: rest =>
    if a.createdAt ≤ b.createdAt then b :: insertByCreatedDesc a rest
    else a :: b :: rest

/-- `.sort({ createdAt: -1 })`: most recent first. -/
def sortByCreatedDesc : List ArticleDoc → List ArticleDoc
  | [] => []
  | a :: rest => insertByCreatedDesc a (sortByCreatedDesc rest)

/-- The result shape `searchArticles` returns. -/
structure SearchResult where
  articles : List ArticleDoc
  totalArticles : Nat
  totalPages : Nat
  currentPage : Int
  searchQuery : String
deriving DecidableEq

/-- `searchArticles` of the article model (lines 17-50): counts the
documents matching the predicate, then returns the matching page sorted by
`createdAt` descending with `skip = (page-1)*limit`, along with the total
and `Math.ceil(total/limit)` pages. -/
def searchArticles (query : String) (page limit : Int)
    (store : List ArticleDoc) : SearchResult :=
  let skip := ((page - 1) * limit).toNat
  let found := (sortByCreatedDesc store).filter (matchesSearch query)
  let totalArticles := found.length
  { articles := (found.drop skip).take limit.toNat
    totalArticles := totalArticles
    totalPages := (totalArticles + limit.toNat - 1) / limit.toNat
    currentPage := page
    searchQuery := query }

/-- `searchArticlesService` (src/services/auth.services.js, lines 298-311):
rejects an absent, non-string or under-2-character (after trim) query, then
a page below 1, then a limit outside 1..100, all before any store access;
only then does it run the model search on the trimmed query. -/
def searchArticlesService (query : Option String) (page limit : Int)
    (store : List ArticleDoc) : Except String SearchResult :=
  match query with
  | none => Except.error "search query must have at least 2 characters"
  | some q =>
    if (jsTrim q).length < 2 then
      Except.error "search query must have at least 2 characters"
    else if page < 1 then Except.error "page must be greater than 0"
    else if limit < 1 ∨ 100 < limit then
      Except.error "limit must be between 1 and 100"
    else Except.ok (searchArticles (jsTrim q) page limit store)

/-! Concrete sample data used by the closed evaluation theorems. -/

/-- A user with the author role whose username is `alice`. -/
def aliceUser : UserDoc :=
  { _id := "u1", username := "alice", email := "alice@example.com",
    password := some (bcryptHash "alicepw"), role := "author" }

/-- An article whose `author` field is exactly `alice`. -/
def article1 : ArticleDoc :=
  { _id := "a1", title := "Breaking", author := "alice",
    journalName := "Daily", category := ["news"], description := "story",
    imageUrl := "", createdAt := 0 }

/-- A one-article content store resolving id `a1`. -/
def demoArticleStore : String → Option ArticleDoc :=
  fun aid => if aid = "a1" then some article1 else none

/-- A token verifier behaving as the deployed `verifyToken` does on the
token `loginUser` issued for alice at time 0, checked at time 10. -/
def demoVerify : String → Except String ReqUser :=
  fun s =>
    if s = "tok" then jwtVerify "secret" 10 (loginIssueToken "secret" 0 aliceUser)
    else Except.error "invalid"

/-- A member-role user for the password-update scenario. -/
def bobUser : UserDoc :=
  { _id := "u2", username := "bob", email := "bob@example.com",
    password := some (bcryptHash "oldpw"), role := "member" }

/-- The stored article of the search scenario, titled `Technologie`. -/
def techArticle : ArticleDoc :=
  { _id := "a9", title := "Technologie", author := "bob",
    journalName := "Le Monde", category := ["tech"],
    description := "un article", imageUrl := "", createdAt := 5 }

/-- A closed client handle (readyState `CLOSED`, which is 3 in the ws
library) with an empty inbox. -/
def closedClient : WsClient := { id := 7, readyState := 3, inbox := [] }

/-- An open client handle. -/
def openClient : WsClient := { id := 8, readyState := WS_OPEN, inbox := [] }

/-- A sample valid create body. -/
def sampleBody : CreateBody :=
  { title := some "Breaking", author := some "alice",
    journalName := some "Daily", category := some ["news"],
    description := some "story" }

/-! Claim theorems. -/

/-- C1: evaluation of the code at the failing input.  Alice has role
`author` and her username textually equals the `author` field of article
`a1`; her login token verifies to the payload loginUser signed; and yet the
article-by-id mutation route chain answers Forbidden (403): the blanket
`router.use(authenticate, isAdmin)` rejects every non-admin before the
AuthorOrAdmin policy can run — and even the `isAuthorOrAdmin` policy taken
alone rejects her, because the token payload carries no `username`, so the
ownership comparison `article.author !== user.username` can never succeed.
The claim says such a request passes. -/
theorem c1_author_owner_is_rejected :
    aliceUser.role = "author" ∧
    article1.author = aliceUser.username ∧
    demoArticleStore "a1" = some article1 ∧
    demoVerify "tok" = Except.ok (loginPayload aliceUser) ∧
    articleByIdMutationGate demoVerify demoArticleStore (some "Bearer tok")
      (some "a1") = GateOutcome.forbidden ∧
    statusOf (articleByIdMutationGate demoVerify demoArticleStore
      (some "Bearer tok") (some "a1")) = 403 ∧
    isAuthorOrAdmin demoArticleStore (some (loginPayload aliceUser))
      (some "a1") = GateOutcome.forbidden := by decide

/-- C2: counterexample to the claimed iff.  In `createArticle` and
`updateArticle` a fallible read-back (`getArticleByIdService`) sits between
the store write and the publish; when the write succeeds with a non-zero
count but that read-back throws, the catch answers 500 and NO publish call
occurs — so a non-zero reported count does not imply a publish, refuting
the claim's forward direction at these concrete inputs. -/
theorem c2_nonzero_count_without_publish :
    (1 : Nat) ≠ 0 ∧
    updateArticleCtrl true (Except.ok 1) (Except.error "store failure") =
      (500, []) ∧
    createArticleCtrl true sampleBody (Except.ok "id1")
      (Except.error "store failure") = (500, []) := by decide

/-- C2 (amended): in the wired system (broadcast function present), each
article mutation controller emits a publish call if and only if the store
write it performed reported success with a non-zero
inserted/modified/deleted count (for the insert, success itself, since
`insertOne` inserts exactly one document whenever it succeeds) AND — for
create and update-by-id, which read the article back between the write and
the publish — that read-back returned without throwing.  The only-if
direction is unconditional: a zero count or a thrown store/validation
error publishes nothing. -/
theorem c2_publish_iff_effective_write
    (b : CreateBody) (hb : createMissingFields b = [])
    (ins : Except String String)
    (rbC rbU : Except String (Option ArticleDoc))
    (upd del updT updA delT delA : Except String Nat) :
    ((createArticleCtrl true b ins rbC).2 ≠ [] ↔
      (∃ i, ins = Except.ok i) ∧ ∃ a, rbC = Except.ok a) ∧
    ((updateArticleCtrl true upd rbU).2 ≠ [] ↔
      (∃ n, upd = Except.ok n ∧ n ≠ 0) ∧ ∃ a, rbU = Except.ok a) ∧
    ((deleteArticleCtrl true del).2 ≠ [] ↔
      ∃ n, del = Except.ok n ∧ n ≠ 0) ∧
    ((updateArticlesByTitleCtrl true updT).2 ≠ [] ↔
      ∃ n, updT = Except.ok n ∧ n ≠ 0) ∧
    ((updateArticlesByAuthorCtrl true updA).2 ≠ [] ↔
      ∃ n, updA = Except.ok n ∧ n ≠ 0) ∧
    ((deleteArticlesByTitleCtrl true delT).2 ≠ [] ↔
      ∃ n, delT = Except.ok n ∧ n ≠ 0) ∧
    ((deleteArticlesByAuthorCtrl true delA).2 ≠ [] ↔
      ∃ n, delA = Except.ok n ∧ n ≠ 0) := by
  refine ⟨?_, ?_, ?_, ?_, ?_, ?_, ?_⟩
  · cases ins <;> cases rbC <;> simp [createArticleCtrl, hb]
  · cases upd with
    | error e => simp [updateArticleCtrl]
    | ok n =>
      cases rbU <;> by_cases h : n = 0 <;> simp [updateArticleCtrl, h]
  · cases del with
    | error e => simp [deleteArticleCtrl]
    | ok n => by_cases h : n = 0 <;> simp [deleteArticleCtrl, h]
  · cases updT with
    | error e => simp [updateArticlesByTitleCtrl]
    | ok n => by_cases h : n = 0 <;> simp [updateArticlesByTitleCtrl, h]
  · cases updA with
    | error e => simp [updateArticlesByAuthorCtrl]
    | ok n => by_cases h : n = 0 <;> simp [updateArticlesByAuthorCtrl, h]
  · cases delT with
    | error e => simp [deleteArticlesByTitleCtrl]
    | ok n => by_cases h : n = 0 <;> simp [deleteArticlesByTitleCtrl, h]
  · cases delA with
    | error e => simp [deleteArticlesByAuthorCtrl]
    | ok n => by_cases h : n = 0 <;> simp [deleteArticlesByAuthorCtrl, h]

/-- C2 witness: the amended theorem applied to a concrete valid body and
concrete store reports. -/
theorem c2_publish_iff_effective_write_witness :
    (createArticleCtrl true sampleBody (Except.ok "id1")
        (Except.ok (some article1))).2 ≠ [] ↔
      (∃ i, (Except.ok "id1" : Except String String) = Except.ok i) ∧
      ∃ a, (Except.ok (some article1) :
        Except String (Option ArticleDoc)) = Except.ok a :=
  (c2_publish_iff_effective_write sampleBody (by decide) (Except.ok "id1")
    (Except.ok (some article1)) (Except.ok (some article1)) (Except.ok 1)
    (Except.ok 0) (Except.error "boom") (Except.ok 2) (Except.ok 3)
    (Except.ok 4)).1

/-- C3: `broadcast` serializes the event once — every delivered copy is the
single string `stringify message` — and each connection registered at the
call whose transport is open receives exactly one copy appended to its
inbox, while a connection whose transport is not open receives none and is
left untouched.  The registry length is preserved, so no connection outside
the registered set is affected; a connection registered only after the call
is not in the iterated list and receives nothing. -/
theorem c3_broadcast_exactly_once (stringify : WsEvent → String)
    (message : WsEvent) (clients : List WsClient) :
    (broadcast stringify message clients).length = clients.length ∧
    ∀ (i : Nat) (hi : i < clients.length)
      (hj : i < (broadcast stringify message clients).length),
      (broadcast stringify message clients).get ⟨i, hj⟩ =
        (if (clients.get ⟨i, hi⟩).readyState = WS_OPEN then
          { clients.get ⟨i, hi⟩ with
              inbox := (clients.get ⟨i, hi⟩).inbox ++ [stringify message] }
         else clients.get ⟨i, hi⟩) := by
  constructor
  · simp [broadcast]
  · intro i hi hj
    simp [broadcast, List.get_eq_getElem, List.getElem_map]

/-- C3 witness: at a two-client registry, the open client's inbox gains
exactly the serialized message. -/
theorem c3_broadcast_exactly_once_witness :
    (broadcast (fun _ => "m") { type := "article.created", count := none }
        [openClient, closedClient]).get ⟨0, by decide⟩ =
      { openClient with inbox := openClient.inbox ++ ["m"] } := by
  have h2 := (c3_broadcast_exactly_once (fun _ => "m")
    { type := "article.created", count := none }
    [openClient, closedClient]).2 0 (by decide) (by decide)
  exact h2.trans (by decide)

/-- C4: counterexample to the claim as stated.  A registered handle whose
transport is closed is NOT pruned by the broadcast iteration: after the
loop it is still in the registry, unchanged. -/
theorem c4_closed_handle_not_pruned :
    closedClient.readyState ≠ WS_OPEN ∧
    broadcast (fun _ => "m") { type := "article.created", count := none }
      [closedClient] = [closedClient] := by decide

/-- C4 (amended): the broadcast iteration skips handles whose transport is
not open — they are sent nothing and left untouched — and never removes any
handle: the registry contents, in order, are unchanged by the iteration.
Closed handles leave the registry only through the close/error handlers
calling the registry delete, not as a side effect of iteration. -/
theorem c4_broadcast_skips_without_pruning (stringify : WsEvent → String)
    (message : WsEvent) (clients : List WsClient) :
    ((broadcast stringify message clients).map WsClient.id =
      clients.map WsClient.id) ∧
    (∀ (i : Nat) (hi : i < clients.length)
        (hj : i < (broadcast stringify message clients).length),
        (clients.get ⟨i, hi⟩).readyState ≠ WS_OPEN →
        (broadcast stringify message clients).get ⟨i, hj⟩ =
          clients.get ⟨i, hi⟩) := by
  constructor
  · simp only [broadcast, List.map_map]
    refine List.map_congr_left ?_
    intro c _
    by_cases h : c.readyState = WS_OPEN <;> simp [h]
  · intro i hi hj h
    simp only [List.get_eq_getElem] at h
    simp [broadcast, List.get_eq_getElem, List.getElem_map, h]

/-- C4 witness: the amended theorem applied to a one-closed-client
registry. -/
theorem c4_broadcast_skips_witness :
    (broadcast (fun _ => "m") { type := "article.created", count := none }
        [closedClient]).get ⟨0, by decide⟩ = closedClient :=
  (c4_broadcast_skips_without_pruning (fun _ => "m")
    { type := "article.created", count := none } [closedClient]).2
    0 (by decide) (by decide) (by decide)

/-- C5: for a protected route, absence of a bearer token answers 401
(Unauthenticated) no matter what middleware or handler follows — the chain
short-circuits, and `authenticate` consults no store (its only inputs are
the header and the verifier); a present token whose verification fails
answers 401 (InvalidToken), again independent of what follows; a verified
token attaches the decoded payload (subject id and role) and hands it to
the rest of the pipeline. -/
theorem c5_authentication_gate (verify : String → Except String ReqUser)
    (authHeader : Option String) (next : ReqUser → GateOutcome) :
    (extractBearer authHeader = none →
      ∀ nx : ReqUser → GateOutcome,
        protectedRoute verify nx authHeader = GateOutcome.missingToken ∧
        statusOf (protectedRoute verify nx authHeader) = 401) ∧
    (∀ t, extractBearer authHeader = some t →
      (∃ e, verify t = Except.error e) →
      ∀ nx : ReqUser → GateOutcome,
        protectedRoute verify nx authHeader = GateOutcome.invalidToken ∧
        statusOf (protectedRoute verify nx authHeader) = 401) ∧
    (∀ t u, extractBearer authHeader = some t → verify t = Except.ok u →
      protectedRoute verify next authHeader = next u) := by
  refine ⟨?_, ?_, ?_⟩
  · intro h nx
    simp [protectedRoute, authenticate, h, statusOf]
  · rintro t ht ⟨e, he⟩ nx
    simp [protectedRoute, authenticate, ht, he, statusOf]
  · intro t u ht hu
    simp [protectedRoute, authenticate, ht, hu]

/-- C5 witness: the theorem applied to a missing header and to alice's
verifying token. -/
theorem c5_authentication_gate_witness :
    protectedRoute demoVerify (fun u => GateOutcome.pass u) none =
      GateOutcome.missingToken ∧
    protectedRoute demoVerify (fun u => GateOutcome.pass u)
      (some "Bearer tok") = GateOutcome.pass (loginPayload aliceUser) := by
  constructor
  · exact ((c5_authentication_gate demoVerify none
      (fun u => GateOutcome.pass u)).1 (by decide)
      (fun u => GateOutcome.pass u)).1
  · exact (c5_authentication_gate demoVerify (some "Bearer tok")
      (fun u => GateOutcome.pass u)).2.2 "tok" (loginPayload aliceUser)
      (by decide) (by decide)

/-- C6: a token issued at login carries a fixed expiry exactly 3600 seconds
after its issue time; verification (a function of token, secret and clock)
succeeds 30 minutes after issue, returning the signed subject id and role,
fails 61 minutes after issue because the token is expired, and fails on any
malformed token and on any well-formed token whose signature does not match
the secret. -/
theorem c6_token_lifetime (secret : String) (u : UserDoc) (t0 : Nat) :
    (∃ j : SignedJwt, loginIssueToken secret t0 u = Token.wellFormed j ∧
      j.iat = t0 ∧ j.expiry = t0 + 3600) ∧
    jwtVerify secret (t0 + 1800) (loginIssueToken secret t0 u) =
      Except.ok { userId := u._id, role := u.role, username := none } ∧
    jwtVerify secret (t0 + 3660) (loginIssueToken secret t0 u) =
      Except.error "jwt expired" ∧
    (∀ raw, jwtVerify secret t0 (Token.malformed raw) =
      Except.error "jwt malformed") ∧
    (∀ j : SignedJwt, j.sig ≠ jwtMac secret j.userId j.role j.iat j.expiry →
      jwtVerify secret t0 (Token.wellFormed j) =
        Except.error "invalid signature") := by
  refine ⟨⟨_, rfl, rfl, rfl⟩, ?_, ?_, fun raw => rfl, ?_⟩
  · simp only [loginIssueToken, jwtSign, jwtVerify, tokenLifetimeSecs]
    rw [if_neg (by simp), if_neg (by omega)]
  · simp only [loginIssueToken, jwtSign, jwtVerify, tokenLifetimeSecs]
    rw [if_neg (by simp), if_pos (by omega)]
  · intro j h
    simp only [jwtVerify]
    rw [if_pos h]

/-- C6 witness: the theorem applied to alice's token issued at time 0. -/
theorem c6_token_lifetime_witness :
    jwtVerify "secret" 1800 (loginIssueToken "secret" 0 aliceUser) =
      Except.ok { userId := aliceUser._id, role := aliceUser.role,
                  username := none } ∧
    jwtVerify "secret" 3660 (loginIssueToken "secret" 0 aliceUser) =
      Except.error "jwt expired" :=
  ⟨(c6_token_lifetime "secret" aliceUser 0).2.1,
   (c6_token_lifetime "secret" aliceUser 0).2.2.1⟩

/-- C7: the search service rejects an absent query or one whose trimmed
length is under 2 characters, a page below 1, and a limit outside 1..100,
in each case answering the validation error for EVERY store — the store is
never consulted.  On the concrete scenario: a store holding one article
titled Technologie, searched with "te", page 1, limit 10, returns exactly
that article (case-insensitive substring matching), while the query "t"
fails validation. -/
theorem c7_search_validation_and_scenario :
    (∀ (q : String) (page limit : Int) (store : List ArticleDoc),
      (jsTrim q).length < 2 →
      searchArticlesService (some q) page limit store =
        Except.error "search query must have at least 2 characters") ∧
    (∀ (page limit : Int) (store : List ArticleDoc),
      searchArticlesService none page limit store =
        Except.error "search query must have at least 2 characters") ∧
    (∀ (q : String) (page limit : Int) (store : List ArticleDoc),
      2 ≤ (jsTrim q).length → page < 1 →
      searchArticlesService (some q) page limit store =
        Except.error "page must be greater than 0") ∧
    (∀ (q : String) (page limit : Int) (store : List ArticleDoc),
      2 ≤ (jsTrim q).length → 1 ≤ page → (limit < 1 ∨ 100 < limit) →
      searchArticlesService (some q) page limit store =
        Except.error "limit must be between 1 and 100") ∧
    searchArticlesService (some "te") 1 10 [techArticle] =
      Except.ok { articles := [techArticle], totalArticles := 1,
                  totalPages := 1, currentPage := 1, searchQuery := "te" } ∧
    searchArticlesService (some "t") 1 10 [techArticle] =
      Except.error "search query must have at least 2 characters" := by
  refine ⟨?_, fun page limit store => rfl, ?_, ?_, by decide, by decide⟩
  · intro q page limit store h
    simp only [searchArticlesService]
    rw [if_pos h]
  · intro q page limit store h1 h2
    simp only [searchArticlesService]
    rw [if_neg (by omega), if_pos h2]
  · intro q page limit store h1 h2 h3
    simp only [searchArticlesService]
    rw [if_neg (by omega), if_neg (by omega), if_pos h3]

/-- C7 witness: the validation conjuncts applied at concrete inputs. -/
theorem c7_search_validation_witness :
    searchArticlesService (some " x ") 1 10 [techArticle] =
      Except.error "search query must have at least 2 characters" ∧
    searchArticlesService (some "ok") 0 10 [techArticle] =
      Except.error "page must be greater than 0" ∧
    searchArticlesService (some "ok") 1 101 [techArticle] =
      Except.error "limit must be between 1 and 100" :=
  ⟨(c7_search_validation_and_scenario).1 " x " 1 10 [techArticle] (by decide),
   (c7_search_validation_and_scenario).2.2.1 "ok" 0 10 [techArticle]
     (by decide) (by decide),
   (c7_search_validation_and_scenario).2.2.2.1 "ok" 1 101 [techArticle]
     (by decide) (by decide) (Or.inr (by decide))⟩

/-- C8: evaluation of the code at the failing input.  Registration and the
by-id update service do store only a bcrypt hash — but the update-by-email
path (`userModel.updateUserByEmail`, reached by PUT /users/email/:email)
applies `$set` to the raw request body without hashing, so a password sent
there is persisted in plaintext, violating the invariant the claim
states. -/
theorem c8_plaintext_stored_by_update_by_email :
    (registerUser "u9"
      { username := "eve", email := "eve@example.com", password := "pw9",
        role := none }).password = some (PwValue.hashed "pw9") ∧
    updateUserService "u2" { password := some "svcpw" } [bobUser] =
      [{ bobUser with password := some (bcryptHash "svcpw") }] ∧
    updateUserByEmail "bob@example.com" { password := some "newsecret" }
      [bobUser] =
      [{ bobUser with password := some (PwValue.plain "newsecret") }] := by
  decide

/-- C9: `unregister` (the `clients.delete` performed by the close and error
handlers) is idempotent and local: it is a total function (never raises),
removing an absent handle returns the registry unchanged, after removal the
handle is gone, every other entry is still present and nothing new appears,
and a second removal of the same handle changes nothing. -/
theorem c9_unregister_idempotent (wsId : Nat) (clients : List WsClient) :
    ((∀ c ∈ clients, c.id ≠ wsId) → unregister wsId clients = clients) ∧
    (∀ c ∈ unregister wsId clients, c.id ≠ wsId) ∧
    (∀ c ∈ clients, c.id ≠ wsId → c ∈ unregister wsId clients) ∧
    (∀ c ∈ unregister wsId clients, c ∈ clients) ∧
    unregister wsId (unregister wsId clients) = unregister wsId clients := by
  refine ⟨?_, ?_, ?_, ?_, ?_⟩
  · intro h
    apply List.filter_eq_self.2
    intro c hc
    simpa using h c hc
  · intro c hc
    simp only [unregister] at hc
    have := (List.mem_filter.1 hc).2
    simpa using this
  · intro c hc h
    simp only [unregister]
    exact List.mem_filter.2 ⟨hc, by simpa⟩
  · intro c hc
    simp only [unregister] at hc
    exact (List.mem_filter.1 hc).1
  · apply List.filter_eq_self.2
    intro c hc
    simp only [unregister] at hc
    exact (List.mem_filter.1 hc).2

/-- C9 witness: removing an id absent from a one-client registry leaves it
unchanged. -/
theorem c9_unregister_idempotent_witness :
    unregister 7 [openClient] = [openClient] :=
  (c9_unregister_idempotent 7 [openClient]).1 (by decide)

/-- C10: the inbound-frame handler never touches the client registry and
never raises (it is a total function): a frame that fails to parse produces
no reply; a parsed frame whose type is not "ping" produces no reply; a
frame parsing to type "ping" produces exactly one pong reply addressed to
the sending connection alone. -/
theorem c10_inbound_frame_handling (stringify : WsEvent → String)
    (sender : Nat) (clients : List WsClient) :
    (∀ raw, handleMessage stringify sender (InboundFrame.malformed raw)
      clients = (clients, [])) ∧
    (∀ ty, ty ≠ some "ping" →
      handleMessage stringify sender (InboundFrame.parsed ty) clients =
        (clients, [])) ∧
    handleMessage stringify sender (InboundFrame.parsed (some "ping"))
      clients =
      (clients, [(sender, stringify { type := "pong", count := none })]) := by
  refine ⟨fun raw => rfl, ?_, ?_⟩
  · intro ty h
    simp [handleMessage, h]
  · simp [handleMessage]

/-- C10 witness: a parsed non-ping frame gets no reply and leaves the
registry unchanged. -/
theorem c10_inbound_frame_handling_witness :
    handleMessage (fun _ => "p") 3 (InboundFrame.parsed (some "chat"))
      [openClient] = ([openClient], []) :=
  (c10_inbound_frame_handling (fun _ => "p") 3 [openClient]).2.1
    (some "chat") (by decide)

end NewsApi
